import Mathlib

/-!
Shallow embedding of `src/server.py` (TiDB Custom MCP Server) and proofs of
the specification claims about it.

The server exposes four tools (`execute_sql`, `get_table_info`,
`get_database_stats`, `benchmark_query`) dispatched by `call_tool`.  The
external world (the pymysql driver, the database, the wall clock, and the
stdlib `json.dumps` / number formatting) is modelled by an `Env` record of
oracles; the driver-visible effects of a call (connections opened and
closed, statements executed, result sets fetched) are recorded in an
explicit `DriverState` threaded through a small state-plus-exceptions
monad `M`, so that Python exceptions become `Except.error` values and
`try/finally` becomes the explicit combinator `tryFinally`.
-/

namespace TidbMcp

/-! ### Statement classification (server.py line 153 / 315 / 322)

`query.strip().upper().startswith(('SELECT', 'SHOW', 'DESCRIBE', 'EXPLAIN'))`.
Python `str.strip()` removes whitespace from both ends; `str.upper()`
uppercases each character; `startswith` with a tuple tests each prefix. -/

/-- Python `str.strip()` on the character list of a string. -/
def stripChars (cs : List Char) : List Char :=
  ((cs.dropWhile Char.isWhitespace).reverse.dropWhile Char.isWhitespace).reverse

/-- Python `str.upper()` on the character list of a string. -/
def upperChars (cs : List Char) : List Char := cs.map Char.toUpper

/-- Python `str.startswith((p1, ..., pn))`: true iff some listed prefix starts the string. -/
def startswithAny (s : List Char) (ps : List (List Char)) : Bool :=
  ps.any (fun p => List.isPrefixOf p s)

/-- The fixed keyword tuple from server.py. -/
def projectionKeywords : List String := ["SELECT", "SHOW", "DESCRIBE", "EXPLAIN"]

/-- The inline test `query.strip().upper().startswith(('SELECT', 'SHOW', 'DESCRIBE', 'EXPLAIN'))`
used at server.py:153, 315 and 322. -/
def isProjectionQuery (query : String) : Bool :=
  startswithAny (upperChars (stripChars query.data)) (projectionKeywords.map String.data)

/-- The two effect classes the spec's Statement Classifier distinguishes. -/
inductive StatementClass where
  | Projection
  | Mutation
  deriving DecidableEq, Repr

/-- The Statement Classifier: the verdict the code's prefix test induces. -/
def classify (query : String) : StatementClass :=
  if isProjectionQuery query then .Projection else .Mutation

/-- Modelled from the spec: "trim whitespace, uppercase, and test whether the
statement begins with one of a fixed keyword set {SELECT, SHOW, DESCRIBE,
EXPLAIN}. Anything else is a Mutation."  Stated as a predicate on the SQL
string for comparison with the code-side `classify`. -/
def specProjection (sql : String) : Prop :=
  ∃ kw ∈ projectionKeywords,
    List.isPrefixOf kw.data (upperChars (stripChars sql.data)) = true

instance (sql : String) : Decidable (specProjection sql) := by
  unfold specProjection; infer_instance

/-! ### benchmark_query iteration clamping (server.py lines 302-305, 319)

```
iterations = arguments.get("iterations", 5)
if iterations > 50:
    iterations = 50
...
for i in range(iterations):
```
-/

/-- The clamp at server.py:304-305: only the upper bound is enforced. -/
def clampIterations (i : Int) : Int := if i > 50 then 50 else i

/-- How many timed repetitions `for i in range(iterations)` performs:
Python `range(n)` is empty for `n ≤ 0`. -/
def executedIterations (i : Int) : Nat := (clampIterations i).toNat

/-! ### Connection configuration and TLS policy (server.py lines 26-43) -/

/-- `TiDBConnection.__init__`: the five connection parameters. -/
structure Config where
  host : String
  port : Int
  username : String
  password : String
  database : String
  deriving Repr, DecidableEq

/-- The environment-variable defaults of `TiDBConnection.__init__`. -/
def defaultConfig : Config :=
  { host := "localhost", port := 4000, username := "root",
    password := "", database := "test" }

/-- The `ssl` argument built at server.py:41:
`ssl={'ssl': True} if self.host != "localhost" else None`. -/
def sslArg (host : String) : Option Bool :=
  if host ≠ "localhost" then some true else none

/-- Whether `get_connection` requests TLS for a given configured host. -/
def tlsRequested (host : String) : Bool := (sslArg host).isSome

/-- Modelled from the spec: "tlsRequired derived from whether host is a
loopback address", "when the host is a loopback address (e.g. \"localhost\"
or \"127.0.0.1\"), no TLS is requested".  A host counts as loopback when it
is the name `localhost` or a loopback IP literal. -/
def isLoopback (host : String) : Bool :=
  host = "localhost" || host = "127.0.0.1" || host = "::1"

/-! ### The effect model

A `Row` is a DictCursor row: an insertion-ordered mapping from column name
to the (string-rendered) value.  The metadata rows of `get_table_info` and
`get_database_stats` are given their typed shapes. -/

/-- A generic result row (dict) as returned by `cursor.fetchall()`. -/
structure Row where
  fields : List (String × String)
  deriving DecidableEq, Repr

/-- One row of the `information_schema.tables` query of `get_table_info`. -/
structure TableRow where
  table_name : String
  table_rows : Int
  data_length : Int
  index_length : Int
  total_size : Int
  auto_increment : Option Int
  table_comment : String
  deriving DecidableEq, Repr

/-- The `SELECT DATABASE() as current_db, VERSION() as version` row. -/
structure DbInfo where
  current_db : String
  version : String
  deriving DecidableEq, Repr

/-- The aggregate statistics row of `get_database_stats`. -/
structure StatsRow where
  table_count : Int
  total_rows : Int
  total_data_size : Int
  total_index_size : Int
  total_size : Int
  deriving DecidableEq, Repr

/-- The `SHOW STATUS LIKE 'Threads_connected'` row (its `Value` column). -/
structure ThreadsRow where
  value : String
  deriving DecidableEq, Repr

/-- Driver-visible events of one invocation, in order. -/
inductive Event where
  | connect
  | close
  | cursor
  | execute (query : String) (params : List String)
  | fetchall
  | fetchone
  | commit
  deriving DecidableEq, Repr

/-- State threaded through an invocation: how many connections are open,
the trace of driver events, and cursors into the oracle streams. -/
structure DriverState where
  openConns : Nat
  trace : List Event
  execCount : Nat
  fetchCount : Nat
  timerCount : Nat
  deriving DecidableEq, Repr

/-- The pristine state at the start of an invocation. -/
def s0 : DriverState :=
  { openConns := 0, trace := [], execCount := 0, fetchCount := 0, timerCount := 0 }

/-- The external world: connection parameters, driver/database oracles
(indexed by call number where a call site can run many times), the wall
clock (elapsed milliseconds of the n-th measured interval), and the stdlib
string formatters (`json.dumps`, `"{:.2f}"`, `"{:,}"`) which are library
code outside this repository. -/
structure Env where
  config : Config
  connectResult : Except String Unit
  cursorResult : Except String Unit
  executeResult : Nat → String → Except String Unit
  fetchallResult : Nat → Except String (List Row)
  fetchTablesResult : Except String (List TableRow)
  dbInfoResult : Except String DbInfo
  statsResult : Except String StatsRow
  threadsResult : Except String (Option ThreadsRow)
  commitResult : Except String Unit
  rowcount : Int
  elapsedMs : Nat → ℚ
  jsonDumps : List Row → String
  fmt2 : ℚ → String
  fmtComma : Int → String

/-- The invocation monad: explicit state plus exceptions, where the state
survives a raised exception (as it does in Python). -/
def M (α : Type) : Type := DriverState → Except String α × DriverState

/-- Return a value, leaving the state unchanged. -/
def mPure {α : Type} (a : α) : M α := fun s => (Except.ok a, s)

/-- Sequence two computations; a raised exception short-circuits but keeps
the state reached so far. -/
def mBind {α β : Type} (x : M α) (f : α → M β) : M β := fun s =>
  match x s with
  | (Except.ok a, s1) => f a s1
  | (Except.error e, s1) => (Except.error e, s1)

instance : Monad M where
  pure := mPure
  bind := mBind

/-- Raise a Python exception with the given message. -/
def throwErr {α : Type} (msg : String) : M α := fun s => (Except.error msg, s)

/-- Lift a driver-call outcome into the monad. -/
def liftE {α : Type} (r : Except String α) : M α := fun s => (r, s)

/-- Append an event to the trace. -/
def record (e : Event) : M Unit := fun s =>
  (Except.ok (), { s with trace := s.trace ++ [e] })

/-- Python `try: body finally: fin` where `fin` (here: `connection.close()`)
always runs, whether `body` returned or raised. -/
def tryFinally {α : Type} (body : M α) (fin : M Unit) : M α := fun s =>
  match body s with
  | (Except.ok a, s1) =>
      match fin s1 with
      | (Except.ok _, s2) => (Except.ok a, s2)
      | (Except.error e, s2) => (Except.error e, s2)
  | (Except.error e, s1) =>
      match fin s1 with
      | (Except.ok _, s2) => (Except.error e, s2)
      | (Except.error e2, s2) => (Except.error e2, s2)

/-- `db.get_connection()` (server.py:33-43): on success one more connection
is open; on failure the handshake raised and nothing was opened. -/
def getConnection (env : Env) : M Unit := fun s =>
  match env.connectResult with
  | Except.ok _ =>
      (Except.ok (), { s with openConns := s.openConns + 1, trace := s.trace ++ [.connect] })
  | Except.error e => (Except.error e, s)

/-- `connection.close()`: the open connection is released. -/
def closeConnection : M Unit := fun s =>
  (Except.ok (), { s with openConns := s.openConns - 1, trace := s.trace ++ [.close] })

/-- `connection.cursor()`. -/
def makeCursor (env : Env) : M Unit := fun s =>
  match env.cursorResult with
  | Except.ok _ => (Except.ok (), { s with trace := s.trace ++ [.cursor] })
  | Except.error e => (Except.error e, { s with trace := s.trace ++ [.cursor] })

/-- `cursor.execute(query, params)`; outcomes are indexed by how many
executes this invocation has already issued. -/
def cursorExecute (env : Env) (query : String) (params : List String) : M Unit := fun s =>
  ((env.executeResult s.execCount query).map (fun _ => ()),
   { s with execCount := s.execCount + 1, trace := s.trace ++ [.execute query params] })

/-- `cursor.fetchall()` on a generic query. -/
def fetchall (env : Env) : M (List Row) := fun s =>
  (env.fetchallResult s.fetchCount,
   { s with fetchCount := s.fetchCount + 1, trace := s.trace ++ [.fetchall] })

/-- `cursor.fetchall()` on the `information_schema.tables` query. -/
def fetchTables (env : Env) : M (List TableRow) := fun s =>
  (env.fetchTablesResult, { s with trace := s.trace ++ [.fetchall] })

/-- `connection.commit()`. -/
def commit (env : Env) : M Unit := fun s =>
  (env.commitResult.map (fun _ => ()), { s with trace := s.trace ++ [.commit] })

/-- The elapsed milliseconds `(end_time - start_time) * 1000` of the next
measured interval, read from the clock oracle. -/
def readElapsed (env : Env) : M ℚ := fun s =>
  (Except.ok (env.elapsedMs s.timerCount), { s with timerCount := s.timerCount + 1 })

/-- The argument mapping of one `ToolInvocation` (the keys the four tools
read). -/
structure Arguments where
  query : Option String
  measure_time : Option Bool
  table_name : Option String
  iterations : Option Int
  deriving DecidableEq, Repr

/-- `arguments["key"]`: raises `KeyError` (whose message is the repr of the
key) when the key is absent. -/
def getRequired {α : Type} (v : Option α) (key : String) : M α :=
  match v with
  | some a => pure a
  | none => throwErr (String.singleton (Char.ofNat 39) ++ key ++ String.singleton (Char.ofNat 39))

/-- A rendered `TextContent(type="text", text=...)` block. -/
structure TextContent where
  text : String
  deriving DecidableEq, Repr

/-- A Python single quote character, for rendered reprs and SQL literals. -/
def pyQ : String := String.singleton (Char.ofNat 39)

/-- The optional `Execution time: ... ms` line of `execute_sql`. -/
def timingLine (env : Env) (elapsed : Option ℚ) : String :=
  match elapsed with
  | some t => "Execution time: " ++ env.fmt2 t ++ " ms\n"
  | none => ""

/-- The `start_time = time.time() if measure_time else None` /
`end_time - start_time` pair, as the measured interval it induces. -/
def measuredElapsed (env : Env) (measure_time : Bool) : M (Option ℚ) :=
  if measure_time then do
    let t ← readElapsed env
    pure (some t)
  else
    pure none

/-- `if classified-as-projection: cursor.fetchall()` with the rows
discarded (server.py:315-316 and 322-323). -/
def maybeFetchDiscard (env : Env) (query : String) : M Unit :=
  if isProjectionQuery query then do
    let _ ← fetchall env
    pure ()
  else
    pure ()

/-- `execute_sql` (server.py:139-183). -/
def executeSql (env : Env) (args : Arguments) : M (List TextContent) := do
  let query ← getRequired args.query "query"
  let measure_time := args.measure_time.getD false
  getConnection env
  tryFinally
    (do
      makeCursor env
      cursorExecute env query []
      let elapsed ← measuredElapsed env measure_time
      if isProjectionQuery query then do
        let results ← fetchall env
        let text := "Query executed successfully.\n" ++ timingLine env elapsed
          ++ "Rows returned: " ++ toString results.length ++ "\n\n"
          ++ (if results.isEmpty = false then env.jsonDumps results else "No rows returned.")
        pure [TextContent.mk text]
      else do
        commit env
        let affected_rows := env.rowcount
        let text := "Query executed successfully.\n" ++ timingLine env elapsed
          ++ "Affected rows: " ++ toString affected_rows
        pure [TextContent.mk text])
    closeConnection

/-- The `information_schema.tables` query for one named table (server.py:196-207). -/
def oneTableQuery : String :=
  "
                SELECT
                    table_name,
                    table_rows,
                    data_length,
                    index_length,
                    (data_length + index_length) as total_size,
                    auto_increment,
                    table_comment
                FROM information_schema.tables
                WHERE table_schema = %s AND table_name = %s
            "

/-- The `information_schema.tables` query for all tables (server.py:210-222). -/
def allTablesQuery : String :=
  "
                SELECT
                    table_name,
                    table_rows,
                    data_length,
                    index_length,
                    (data_length + index_length) as total_size,
                    auto_increment,
                    table_comment
                FROM information_schema.tables
                WHERE table_schema = %s
                ORDER BY total_size DESC
            "

/-- `"{b:,} bytes ({b/1024/1024:.2f} MB)"`, the second half. -/
def mbOf (env : Env) (bytes : Int) : String := env.fmt2 ((bytes : ℚ) / 1024 / 1024)

/-- The per-table block of the `get_table_info` report (server.py:231-241). -/
def renderTable (env : Env) (t : TableRow) : String :=
  "Table: " ++ t.table_name ++ "\n"
  ++ "  Rows: " ++ env.fmtComma t.table_rows ++ "\n"
  ++ "  Data size: " ++ env.fmtComma t.data_length ++ " bytes (" ++ mbOf env t.data_length ++ " MB)\n"
  ++ "  Index size: " ++ env.fmtComma t.index_length ++ " bytes (" ++ mbOf env t.index_length ++ " MB)\n"
  ++ "  Total size: " ++ env.fmtComma t.total_size ++ " bytes (" ++ mbOf env t.total_size ++ " MB)\n"
  ++ (match t.auto_increment with
      | some v => if v ≠ 0 then "  Auto increment: " ++ toString v ++ "\n" else ""
      | none => "")
  ++ (if t.table_comment ≠ "" then "  Comment: " ++ t.table_comment ++ "\n" else "")
  ++ "\n"

/-- The branch at server.py:194-222: Python `if table_name:` is truthiness,
so absent and empty-string both take the all-tables branch; both queries
are parameterized by the configured database. -/
def execTableInfoQuery (env : Env) (table_name : Option String) : M Unit :=
  if (table_name.getD "") ≠ "" then
    cursorExecute env oneTableQuery [env.config.database, table_name.getD ""]
  else
    cursorExecute env allTablesQuery [env.config.database]

/-- `get_table_info` (server.py:186-246). -/
def getTableInfo (env : Env) (args : Arguments) : M (List TextContent) := do
  let table_name := args.table_name
  getConnection env
  tryFinally
    (do
      makeCursor env
      execTableInfoQuery env table_name
      let results ← fetchTables env
      if results.isEmpty then
        pure [TextContent.mk "No tables found."]
      else
        pure [TextContent.mk
          ("Table Information:\n\n" ++ String.join (results.map (renderTable env)))])
    closeConnection

/-- The aggregate-statistics query of `get_database_stats` (server.py:260-269). -/
def statsQuery : String :=
  "
            SELECT
                COUNT(*) as table_count,
                SUM(table_rows) as total_rows,
                SUM(data_length) as total_data_size,
                SUM(index_length) as total_index_size,
                SUM(data_length + index_length) as total_size
            FROM information_schema.tables
            WHERE table_schema = %s
        "

/-- `SHOW STATUS LIKE 'Threads_connected'` (server.py:274). -/
def threadsQuery : String :=
  "SHOW STATUS LIKE " ++ pyQ ++ "Threads_connected" ++ pyQ

/-- `get_database_stats` (server.py:249-296). -/
def getDatabaseStats (env : Env) (_args : Arguments) : M (List TextContent) := do
  getConnection env
  tryFinally
    (do
      makeCursor env
      cursorExecute env "SELECT DATABASE() as current_db, VERSION() as version" []
      record .fetchone
      let db_info ← liftE env.dbInfoResult
      cursorExecute env statsQuery [env.config.database]
      record .fetchone
      let stats ← liftE env.statsResult
      cursorExecute env threadsQuery []
      record .fetchone
      let connections ← liftE env.threadsResult
      let text := "Database Statistics\n" ++ "==================\n\n"
        ++ "Database: " ++ db_info.current_db ++ "\n"
        ++ "Version: " ++ db_info.version ++ "\n"
        ++ "Host: " ++ env.config.host ++ ":" ++ toString env.config.port ++ "\n\n"
        ++ "Table Statistics:\n"
        ++ "  Total tables: " ++ toString stats.table_count ++ "\n"
        ++ "  Total rows: " ++ env.fmtComma stats.total_rows ++ "\n"
        ++ "  Data size: " ++ env.fmtComma stats.total_data_size ++ " bytes ("
          ++ mbOf env stats.total_data_size ++ " MB)\n"
        ++ "  Index size: " ++ env.fmtComma stats.total_index_size ++ " bytes ("
          ++ mbOf env stats.total_index_size ++ " MB)\n"
        ++ "  Total size: " ++ env.fmtComma stats.total_size ++ " bytes ("
          ++ mbOf env stats.total_size ++ " MB)\n\n"
        ++ (match connections with
            | some c => "Active connections: " ++ c.value ++ "\n"
            | none => "")
      pure [TextContent.mk text])
    closeConnection

/-- One timed repetition of the benchmark loop (server.py:319-327), iterated:
execute, fetch all rows when the statement is a projection, record the
elapsed milliseconds. -/
def benchIter (env : Env) (query : String) : Nat → M (List ℚ)
  | 0 => pure []
  | Nat.succ n => do
      cursorExecute env query []
      maybeFetchDiscard env query
      let t ← readElapsed env
      let rest ← benchIter env query n
      pure (t :: rest)

/-- Python `min(x :: xs)`. -/
def listMin : List ℚ → ℚ
  | [] => 0
  | x :: xs => xs.foldl min x

/-- Python `max(x :: xs)`. -/
def listMax : List ℚ → ℚ
  | [] => 0
  | x :: xs => xs.foldl max x

/-- The Python repr of `[f"{t:.2f}" for t in times]`. -/
def reprTimes (env : Env) (times : List ℚ) : String :=
  "[" ++ String.intercalate ", " (times.map (fun t => pyQ ++ env.fmt2 t ++ pyQ)) ++ "]"

/-- The rendered benchmark report (server.py:334-341). -/
def benchReport (env : Env) (query : String) (iterations : Int)
    (avg mn mx : ℚ) (times : List ℚ) : String :=
  "Query Benchmark Results\n" ++ "======================\n\n"
  ++ "Query: " ++ query ++ "\n"
  ++ "Iterations: " ++ toString iterations ++ "\n\n"
  ++ "Average execution time: " ++ env.fmt2 avg ++ " ms\n"
  ++ "Minimum execution time: " ++ env.fmt2 mn ++ " ms\n"
  ++ "Maximum execution time: " ++ env.fmt2 mx ++ " ms\n\n"
  ++ "Individual times: " ++ reprTimes env times ++ " ms\n"

/-- `benchmark_query` (server.py:299-346).  `sum(times) / len(times)` raises
`ZeroDivisionError("division by zero")` when no timed run happened. -/
def benchmarkQuery (env : Env) (args : Arguments) : M (List TextContent) := do
  let query ← getRequired args.query "query"
  let iterations0 := args.iterations.getD 5
  let iterations := clampIterations iterations0
  getConnection env
  tryFinally
    (do
      makeCursor env
      cursorExecute env query []
      maybeFetchDiscard env query
      let times ← benchIter env query iterations.toNat
      if times.length = 0 then
        throwErr "division by zero"
      else
        let avg_time := times.sum / (times.length : ℚ)
        let min_time := listMin times
        let max_time := listMax times
        pure [TextContent.mk (benchReport env query iterations avg_time min_time max_time times)])
    closeConnection

/-- The recognized tool names, in dispatch order (server.py:124-131). -/
def toolNames : List String :=
  ["execute_sql", "get_table_info", "get_database_stats", "benchmark_query"]

/-- The body of `call_tool`'s `try` block: route by name, unknown names
produce the `Unknown tool` report without any driver activity. -/
def dispatchTool (env : Env) (name : String) (args : Arguments) : M (List TextContent) :=
  if name = "execute_sql" then executeSql env args
  else if name = "get_table_info" then getTableInfo env args
  else if name = "get_database_stats" then getDatabaseStats env args
  else if name = "benchmark_query" then benchmarkQuery env args
  else pure [TextContent.mk ("Unknown tool: " ++ name)]

/-- `call_tool` (server.py:119-136): the catch-all turns any raised
exception into the `Error: <message>` report. -/
def callTool (env : Env) (name : String) (args : Arguments) : M (List TextContent) := fun s =>
  match dispatchTool env name args s with
  | (Except.ok r, s1) => (Except.ok r, s1)
  | (Except.error e, s1) => (Except.ok [TextContent.mk ("Error: " ++ e)], s1)

/-- A concrete environment in which every driver call succeeds, used to
instantiate the theorems below at concrete inputs. -/
def happyEnv : Env :=
  { config := defaultConfig
    connectResult := Except.ok ()
    cursorResult := Except.ok ()
    executeResult := fun _ _ => Except.ok ()
    fetchallResult := fun _ => Except.ok []
    fetchTablesResult := Except.ok []
    dbInfoResult := Except.ok ⟨"test", "8.0.11-TiDB"⟩
    statsResult := Except.ok ⟨0, 0, 0, 0, 0⟩
    threadsResult := Except.ok none
    commitResult := Except.ok ()
    rowcount := 0
    elapsedMs := fun _ => 0
    jsonDumps := fun _ => ""
    fmt2 := fun _ => "0.00"
    fmtComma := fun _ => "0" }

/-- `happyEnv` with a failing connection handshake. -/
def connFailEnv : Env :=
  { happyEnv with connectResult := Except.error "Connection refused" }

/-- The driver events of one timed benchmark repetition. -/
def iterEvents (q : String) : List Event :=
  [Event.execute q []] ++ (if isProjectionQuery q then [Event.fetchall] else [])

/-- The driver events of `n` timed benchmark repetitions. -/
def iterTrace (q : String) : Nat → List Event
  | 0 => []
  | Nat.succ n => iterEvents q ++ iterTrace q n

/-- How many `cursor.execute` calls a trace records. -/
def execEvents (t : List Event) : Nat :=
  t.countP (fun e => match e with | Event.execute _ _ => true | _ => false)

/-- A computation neither leaks nor closes connections: it leaves the
open-connection count unchanged, whether it returns or raises. -/
def ConnNeutral {α : Type} (m : M α) : Prop :=
  ∀ s, ((m s).2).openConns = s.openConns

/-- `rows` is ordered by descending total size, the order
`ORDER BY total_size DESC` asks the database for. -/
def sortedByTotalSizeDesc (rows : List TableRow) : Prop :=
  rows.Pairwise (fun a b => b.total_size ≤ a.total_size)

/-- An empty argument mapping. -/
def noArgs : Arguments :=
  { query := none, measure_time := none, table_name := none, iterations := none }

/-- An argument mapping holding just a query string. -/
def queryArgs (q : String) : Arguments := { noArgs with query := some q }

/-- An argument mapping holding a query string and an iteration count. -/
def benchArgs (q : String) (i : Int) : Arguments :=
  { noArgs with query := some q, iterations := some i }

/-! ## Helper lemmas: the invocation monad and connection accounting -/

theorem bind_eq {α β : Type} (x : M α) (f : α → M β) : x >>= f = mBind x f := rfl

theorem pure_eq {α : Type} (a : α) : (pure a : M α) = mPure a := rfl

theorem connNeutral_pure {α : Type} (a : α) : ConnNeutral (pure a : M α) := fun _ => rfl

theorem connNeutral_bind {α β : Type} {x : M α} {f : α → M β}
    (hx : ConnNeutral x) (hf : ∀ a, ConnNeutral (f a)) : ConnNeutral (x >>= f) := by
  intro s
  show ((mBind x f) s).2.openConns = s.openConns
  unfold mBind
  cases hxs : x s with
  | mk r s1 =>
    have h1 : s1.openConns = s.openConns := by
      have := hx s; rw [hxs] at this; exact this
    cases r with
    | ok a =>
      simpa [h1] using (hf a s1).trans h1
    | error e => simpa using h1

theorem connNeutral_ite {α : Type} (c : Prop) [Decidable c] {x y : M α}
    (hx : ConnNeutral x) (hy : ConnNeutral y) : ConnNeutral (if c then x else y) := by
  by_cases h : c
  · rw [if_pos h]; exact hx
  · rw [if_neg h]; exact hy

theorem connNeutral_throwErr {α : Type} (msg : String) :
    ConnNeutral (throwErr (α := α) msg) := fun _ => rfl

theorem connNeutral_liftE {α : Type} (r : Except String α) : ConnNeutral (liftE r) :=
  fun _ => rfl

theorem connNeutral_record (e : Event) : ConnNeutral (record e) := fun _ => rfl

theorem connNeutral_makeCursor (env : Env) : ConnNeutral (makeCursor env) := by
  intro s; unfold makeCursor; cases env.cursorResult <;> rfl

theorem connNeutral_cursorExecute (env : Env) (q : String) (p : List String) :
    ConnNeutral (cursorExecute env q p) := fun _ => rfl

theorem connNeutral_fetchall (env : Env) : ConnNeutral (fetchall env) := fun _ => rfl

theorem connNeutral_fetchTables (env : Env) : ConnNeutral (fetchTables env) := fun _ => rfl

theorem connNeutral_commit (env : Env) : ConnNeutral (commit env) := fun _ => rfl

theorem connNeutral_readElapsed (env : Env) : ConnNeutral (readElapsed env) := fun _ => rfl

theorem connNeutral_getRequired {α : Type} (v : Option α) (k : String) :
    ConnNeutral (getRequired v k) := by
  cases v <;> exact fun _ => rfl

theorem connNeutral_measuredElapsed (env : Env) (b : Bool) :
    ConnNeutral (measuredElapsed env b) := by
  unfold measuredElapsed
  apply connNeutral_ite
  · exact connNeutral_bind (connNeutral_readElapsed env) (fun _ => connNeutral_pure _)
  · exact connNeutral_pure _

theorem connNeutral_maybeFetchDiscard (env : Env) (q : String) :
    ConnNeutral (maybeFetchDiscard env q) := by
  unfold maybeFetchDiscard
  apply connNeutral_ite
  · exact connNeutral_bind (connNeutral_fetchall env) (fun _ => connNeutral_pure _)
  · exact connNeutral_pure _

theorem connNeutral_execTableInfoQuery (env : Env) (tn : Option String) :
    ConnNeutral (execTableInfoQuery env tn) := by
  unfold execTableInfoQuery
  exact connNeutral_ite _ (connNeutral_cursorExecute env _ _) (connNeutral_cursorExecute env _ _)

/-- The scoped-acquisition shape of every tool body:
`connection = db.get_connection(); try: body finally: connection.close()`
leaves the open-connection count unchanged whenever `body` does. -/
theorem connNeutral_scoped {α : Type} (env : Env) (body : M α) (hb : ConnNeutral body) :
    ConnNeutral (getConnection env >>= fun _ => tryFinally body closeConnection) := by
  intro s
  show ((mBind (getConnection env) (fun _ => tryFinally body closeConnection)) s).2.openConns
      = s.openConns
  unfold mBind getConnection
  cases hc : env.connectResult with
  | error e => simp
  | ok u =>
    simp only
    set s1 : DriverState :=
      { s with openConns := s.openConns + 1, trace := s.trace ++ [Event.connect] } with hs1
    unfold tryFinally
    cases hbs : body s1 with
    | mk r s2 =>
      have h2 : s2.openConns = s1.openConns := by
        have := hb s1; rw [hbs] at this; exact this
      have h2' : s2.openConns = s.openConns + 1 := by rw [h2, hs1]
      cases r <;> simp [closeConnection, h2']

theorem connNeutral_benchIter (env : Env) (q : String) :
    ∀ n, ConnNeutral (benchIter env q n) := by
  intro n
  induction n with
  | zero => exact connNeutral_pure _
  | succ n ih =>
    unfold benchIter
    apply connNeutral_bind (connNeutral_cursorExecute env q [])
    intro _
    apply connNeutral_bind (connNeutral_maybeFetchDiscard env q)
    intro _
    apply connNeutral_bind (connNeutral_readElapsed env)
    intro _
    exact connNeutral_bind ih (fun _ => connNeutral_pure _)

theorem connNeutral_executeSql (env : Env) (args : Arguments) :
    ConnNeutral (executeSql env args) := by
  unfold executeSql
  apply connNeutral_bind (connNeutral_getRequired _ _)
  intro query
  apply connNeutral_scoped
  apply connNeutral_bind (connNeutral_makeCursor env)
  intro _
  apply connNeutral_bind (connNeutral_cursorExecute env query [])
  intro _
  apply connNeutral_bind (connNeutral_measuredElapsed env _)
  intro elapsed
  apply connNeutral_ite
  · exact connNeutral_bind (connNeutral_fetchall env) (fun _ => connNeutral_pure _)
  · exact connNeutral_bind (connNeutral_commit env) (fun _ => connNeutral_pure _)

theorem connNeutral_getTableInfo (env : Env) (args : Arguments) :
    ConnNeutral (getTableInfo env args) := by
  unfold getTableInfo
  apply connNeutral_scoped
  apply connNeutral_bind (connNeutral_makeCursor env)
  intro _
  apply connNeutral_bind (connNeutral_execTableInfoQuery env _)
  intro _
  apply connNeutral_bind (connNeutral_fetchTables env)
  intro results
  exact connNeutral_ite _ (connNeutral_pure _) (connNeutral_pure _)

theorem connNeutral_getDatabaseStats (env : Env) (args : Arguments) :
    ConnNeutral (getDatabaseStats env args) := by
  unfold getDatabaseStats
  apply connNeutral_scoped
  apply connNeutral_bind (connNeutral_makeCursor env)
  intro _
  apply connNeutral_bind (connNeutral_cursorExecute env _ _)
  intro _
  apply connNeutral_bind (connNeutral_record _)
  intro _
  apply connNeutral_bind (connNeutral_liftE _)
  intro db_info
  apply connNeutral_bind (connNeutral_cursorExecute env _ _)
  intro _
  apply connNeutral_bind (connNeutral_record _)
  intro _
  apply connNeutral_bind (connNeutral_liftE _)
  intro stats
  apply connNeutral_bind (connNeutral_cursorExecute env _ _)
  intro _
  apply connNeutral_bind (connNeutral_record _)
  intro _
  apply connNeutral_bind (connNeutral_liftE _)
  intro connections
  exact connNeutral_pure _

theorem connNeutral_benchmarkQuery (env : Env) (args : Arguments) :
    ConnNeutral (benchmarkQuery env args) := by
  unfold benchmarkQuery
  apply connNeutral_bind (connNeutral_getRequired _ _)
  intro query
  apply connNeutral_scoped
  apply connNeutral_bind (connNeutral_makeCursor env)
  intro _
  apply connNeutral_bind (connNeutral_cursorExecute env query [])
  intro _
  apply connNeutral_bind (connNeutral_maybeFetchDiscard env query)
  intro _
  apply connNeutral_bind (connNeutral_benchIter env query _)
  intro times
  exact connNeutral_ite _ (connNeutral_throwErr _) (connNeutral_pure _)

theorem connNeutral_dispatchTool (env : Env) (name : String) (args : Arguments) :
    ConnNeutral (dispatchTool env name args) := by
  unfold dispatchTool
  apply connNeutral_ite _ (connNeutral_executeSql env args)
  apply connNeutral_ite _ (connNeutral_getTableInfo env args)
  apply connNeutral_ite _ (connNeutral_getDatabaseStats env args)
  apply connNeutral_ite _ (connNeutral_benchmarkQuery env args)
  exact connNeutral_pure _

/-! ## Helper lemmas: classifier, statistics, traces, benchmark loop -/

theorem classify_projection_iff (sql : String) :
    classify sql = StatementClass.Projection ↔ isProjectionQuery sql = true := by
  unfold classify
  by_cases h : isProjectionQuery sql = true <;> simp [h]

theorem foldlMin_le_init (l : List ℚ) (a : ℚ) : l.foldl min a ≤ a := by
  induction l generalizing a with
  | nil => simp
  | cons x xs ih =>
    calc (x :: xs).foldl min a = xs.foldl min (min a x) := rfl
    _ ≤ min a x := ih _
    _ ≤ a := min_le_left a x

theorem foldlMin_le_mem (l : List ℚ) (a y : ℚ) (hy : y ∈ l) : l.foldl min a ≤ y := by
  induction l generalizing a with
  | nil => cases hy
  | cons x xs ih =>
    rcases List.mem_cons.mp hy with h | h
    · subst h
      exact le_trans (foldlMin_le_init xs (min a y)) (min_le_right a y)
    · exact ih (min a x) h

theorem init_le_foldlMax (l : List ℚ) (a : ℚ) : a ≤ l.foldl max a := by
  induction l generalizing a with
  | nil => simp
  | cons x xs ih =>
    calc a ≤ max a x := le_max_left a x
    _ ≤ xs.foldl max (max a x) := ih _
    _ = (x :: xs).foldl max a := rfl

theorem mem_le_foldlMax (l : List ℚ) (a y : ℚ) (hy : y ∈ l) : y ≤ l.foldl max a := by
  induction l generalizing a with
  | nil => cases hy
  | cons x xs ih =>
    rcases List.mem_cons.mp hy with h | h
    · subst h
      exact le_trans (le_max_right a y) (init_le_foldlMax xs (max a y))
    · exact ih (max a x) h

theorem listMin_le_mem (l : List ℚ) (y : ℚ) (hy : y ∈ l) : listMin l ≤ y := by
  cases l with
  | nil => cases hy
  | cons x xs =>
    rcases List.mem_cons.mp hy with h | h
    · subst h; exact foldlMin_le_init xs y
    · exact foldlMin_le_mem xs x y h

theorem mem_le_listMax (l : List ℚ) (y : ℚ) (hy : y ∈ l) : y ≤ listMax l := by
  cases l with
  | nil => cases hy
  | cons x xs =>
    rcases List.mem_cons.mp hy with h | h
    · subst h; exact init_le_foldlMax xs y
    · exact mem_le_foldlMax xs x y h

theorem mul_len_le_sum (l : List ℚ) (m : ℚ) (h : ∀ y ∈ l, m ≤ y) :
    m * l.length ≤ l.sum := by
  induction l with
  | nil => simp
  | cons x xs ih =>
    have hx : m ≤ x := h x (List.mem_cons_self x xs)
    have hxs := ih (fun y hy => h y (List.mem_cons_of_mem x hy))
    simp only [List.length_cons, List.sum_cons]
    push_cast
    have hexp : m * ((xs.length : ℚ) + 1) = m * xs.length + m := by ring
    rw [hexp]
    linarith

theorem sum_le_mul_len (l : List ℚ) (m : ℚ) (h : ∀ y ∈ l, y ≤ m) :
    l.sum ≤ m * l.length := by
  induction l with
  | nil => simp
  | cons x xs ih =>
    have hx : x ≤ m := h x (List.mem_cons_self x xs)
    have hxs := ih (fun y hy => h y (List.mem_cons_of_mem x hy))
    simp only [List.length_cons, List.sum_cons]
    push_cast
    have hexp : m * ((xs.length : ℚ) + 1) = m * xs.length + m := by ring
    rw [hexp]
    linarith

/-- On a nonempty sample, the mean lies between the minimum and maximum. -/
theorem listMin_le_avg_le_listMax (l : List ℚ) (hl : l ≠ []) :
    listMin l ≤ l.sum / l.length ∧ l.sum / l.length ≤ listMax l := by
  have hlen : 0 < (l.length : ℚ) := by
    exact_mod_cast List.length_pos.mpr hl
  constructor
  · rw [le_div_iff₀ hlen]
    exact mul_len_le_sum l (listMin l) (fun y hy => listMin_le_mem l y hy)
  · rw [div_le_iff₀ hlen]
    exact sum_le_mul_len l (listMax l) (fun y hy => mem_le_listMax l y hy)

theorem execEvents_append (a b : List Event) :
    execEvents (a ++ b) = execEvents a + execEvents b := by
  unfold execEvents
  exact List.countP_append _ _ _

theorem execEvents_iterEvents (q : String) : execEvents (iterEvents q) = 1 := by
  unfold iterEvents
  by_cases hp : isProjectionQuery q = true <;> simp [hp, execEvents, List.countP_cons]

theorem execEvents_iterTrace (q : String) (n : Nat) :
    execEvents (iterTrace q n) = n := by
  induction n with
  | zero => rfl
  | succ n ih =>
    unfold iterTrace
    rw [execEvents_append, execEvents_iterEvents, ih]
    omega

theorem benchIter_ok (env : Env) (q : String) (rowsOf : Nat → List Row)
    (hE : ∀ k r, env.executeResult k r = Except.ok ())
    (hF : ∀ k, env.fetchallResult k = Except.ok (rowsOf k)) :
    ∀ n s, ∃ times : List ℚ,
      benchIter env q n s =
        (Except.ok times,
          { openConns := s.openConns,
            trace := s.trace ++ iterTrace q n,
            execCount := s.execCount + n,
            fetchCount := s.fetchCount + (if isProjectionQuery q then n else 0),
            timerCount := s.timerCount + n })
      ∧ times.length = n := by
  intro n
  induction n with
  | zero =>
    intro s
    refine ⟨[], ?_, rfl⟩
    simp [benchIter, pure_eq, mPure, iterTrace]
  | succ n ih =>
    intro s
    by_cases hp : isProjectionQuery q = true
    · obtain ⟨times, heq, hlen⟩ := ih
        { openConns := s.openConns,
          trace := (s.trace ++ [Event.execute q []]) ++ [Event.fetchall],
          execCount := s.execCount + 1,
          fetchCount := s.fetchCount + 1,
          timerCount := s.timerCount + 1 }
      refine ⟨env.elapsedMs s.timerCount :: times, ?_, by simp [hlen]⟩
      simp only [benchIter, bind_eq, mBind, cursorExecute, hE, Except.map,
        maybeFetchDiscard, hp, if_pos, fetchall, hF, readElapsed, pure_eq, mPure]
      simp only at heq
      rw [heq]
      simp [iterTrace, iterEvents, hp, List.append_assoc, Prod.mk.injEq, DriverState.mk.injEq]
      omega
    · obtain ⟨times, heq, hlen⟩ := ih
        { openConns := s.openConns,
          trace := s.trace ++ [Event.execute q []],
          execCount := s.execCount + 1,
          fetchCount := s.fetchCount,
          timerCount := s.timerCount + 1 }
      refine ⟨env.elapsedMs s.timerCount :: times, ?_, by simp [hlen]⟩
      simp only [benchIter, bind_eq, mBind, cursorExecute, hE, Except.map,
        maybeFetchDiscard, hp, Bool.false_eq_true, if_false, fetchall, hF, readElapsed,
        pure_eq, mPure, eq_self_iff_true, if_true, Bool.not_eq_true, ite_false]
      simp only at heq
      rw [heq]
      simp [iterTrace, iterEvents, hp, List.append_assoc, Prod.mk.injEq, DriverState.mk.injEq]
      omega

/-- A successful `benchmark_query` run: the clamped iteration count
determines the sample length; the trace is connect, cursor, the untimed
warm-up (`iterEvents q` once), the timed repetitions, close; an empty
sample raises the division-by-zero error. -/
theorem benchmarkQuery_run (env : Env) (args : Arguments) (q : String) (i : Int)
    (rowsOf : Nat → List Row)
    (hq : args.query = some q) (hi : args.iterations = some i)
    (hconn : env.connectResult = Except.ok ())
    (hcur : env.cursorResult = Except.ok ())
    (hE : ∀ k r, env.executeResult k r = Except.ok ())
    (hF : ∀ k, env.fetchallResult k = Except.ok (rowsOf k)) :
    ∃ times : List ℚ, ∃ final : DriverState,
      times.length = (clampIterations i).toNat ∧
      final.trace = [Event.connect, Event.cursor] ++ iterEvents q
        ++ iterTrace q (clampIterations i).toNat ++ [Event.close] ∧
      final.openConns = 0 ∧
      benchmarkQuery env args s0 =
        (if times.length = 0 then Except.error "division by zero"
         else Except.ok [TextContent.mk (benchReport env q (clampIterations i)
            (times.sum / (times.length : ℚ)) (listMin times) (listMax times) times)],
         final) := by
  by_cases hp : isProjectionQuery q = true
  · simp only [benchmarkQuery, bind_eq, mBind, getRequired, hq, hi, pure_eq, mPure,
      getConnection, hconn, tryFinally, makeCursor, hcur, cursorExecute, hE, Except.map,
      maybeFetchDiscard, hp, if_true, fetchall, hF, s0, Option.getD]
    obtain ⟨times, heq, hlen⟩ := benchIter_ok env q rowsOf hE hF (clampIterations i).toNat
      { openConns := 0 + 1,
        trace := [] ++ [Event.connect] ++ [Event.cursor] ++ [Event.execute q []]
          ++ [Event.fetchall],
        execCount := 0 + 1, fetchCount := 0 + 1, timerCount := 0 }
    simp only at heq
    refine ⟨times,
      { openConns := 0 + 1 - 1,
        trace := ([] ++ [Event.connect] ++ [Event.cursor] ++ [Event.execute q []]
          ++ [Event.fetchall] ++ iterTrace q (clampIterations i).toNat) ++ [Event.close],
        execCount := 0 + 1 + (clampIterations i).toNat,
        fetchCount := 0 + 1 + (if isProjectionQuery q = true then (clampIterations i).toNat else 0),
        timerCount := 0 + (clampIterations i).toNat }, hlen, ?_, ?_, ?_⟩
    · simp [iterEvents, hp, List.append_assoc]
    · rfl
    · rw [heq]
      by_cases hz : times.length = 0 <;>
        simp [hz, throwErr, mPure, closeConnection, List.append_assoc]
  · simp only [benchmarkQuery, bind_eq, mBind, getRequired, hq, hi, pure_eq, mPure,
      getConnection, hconn, tryFinally, makeCursor, hcur, cursorExecute, hE, Except.map,
      maybeFetchDiscard, hp, Bool.false_eq_true, if_false, fetchall, hF, s0, Option.getD,
      Bool.not_eq_true, ite_false]
    obtain ⟨times, heq, hlen⟩ := benchIter_ok env q rowsOf hE hF (clampIterations i).toNat
      { openConns := 0 + 1,
        trace := [] ++ [Event.connect] ++ [Event.cursor] ++ [Event.execute q []],
        execCount := 0 + 1, fetchCount := 0, timerCount := 0 }
    simp only at heq
    refine ⟨times,
      { openConns := 0 + 1 - 1,
        trace := ([] ++ [Event.connect] ++ [Event.cursor] ++ [Event.execute q []]
          ++ iterTrace q (clampIterations i).toNat) ++ [Event.close],
        execCount := 0 + 1 + (clampIterations i).toNat,
        fetchCount := 0 + (if isProjectionQuery q = true then (clampIterations i).toNat else 0),
        timerCount := 0 + (clampIterations i).toNat }, hlen, ?_, ?_, ?_⟩
    · simp [iterEvents, hp, List.append_assoc]
    · rfl
    · rw [heq]
      by_cases hz : times.length = 0 <;>
        simp [hz, throwErr, mPure, closeConnection, List.append_assoc]

/-! ## Claim theorems -/

/-- C3: every tool invocation that acquires a database connection closes it
before returning, on every code path including exceptions raised during
cursor creation, execution, or fetching: dispatching any tool call leaves
the open-connection count unchanged, so an invocation started with no open
connection ends with none, whether it succeeded, returned empty, or
failed. -/
theorem callTool_connection_scoped (env : Env) (name : String) (args : Arguments) :
    (∀ s, ((callTool env name args s).2).openConns = s.openConns) ∧
    ((callTool env name args s0).2).openConns = 0 := by
  have h : ∀ s, ((callTool env name args s).2).openConns = s.openConns := by
    intro s
    have hn := connNeutral_dispatchTool env name args s
    unfold callTool
    cases hd : dispatchTool env name args s with
    | mk r s1 =>
      rw [hd] at hn
      cases r <;> simpa using hn
  exact ⟨h, h s0⟩

/-- C5: for every recognized tool name, any exception raised while
servicing the invocation is caught at the dispatcher boundary and rendered
as the report `"Error: <message>"`; the caught exception changes nothing
else (no retry: the driver state is exactly the one the failed single
attempt left behind). -/
theorem callTool_catches_errors (env : Env) (name : String) (args : Arguments)
    (s : DriverState) (e : String) (_hname : name ∈ toolNames)
    (herr : (dispatchTool env name args s).1 = Except.error e) :
    (callTool env name args s).1 = Except.ok [TextContent.mk ("Error: " ++ e)] ∧
    (callTool env name args s).2 = (dispatchTool env name args s).2 := by
  unfold callTool
  cases hd : dispatchTool env name args s with
  | mk r s1 =>
    rw [hd] at herr
    cases r with
    | ok a => simp at herr
    | error e2 =>
      have he : e2 = e := by simpa using herr
      subst he
      exact ⟨rfl, rfl⟩

/-- Witness for C5: a connection failure during `execute_sql` surfaces as
`Error: Connection refused` and is not retried. -/
theorem callTool_catches_errors_witness :
    (callTool connFailEnv "execute_sql" (queryArgs "SELECT 1") s0).1
        = Except.ok [TextContent.mk ("Error: " ++ "Connection refused")] ∧
      (callTool connFailEnv "execute_sql" (queryArgs "SELECT 1") s0).2
        = (dispatchTool connFailEnv "execute_sql" (queryArgs "SELECT 1") s0).2 :=
  callTool_catches_errors connFailEnv "execute_sql" (queryArgs "SELECT 1") s0
    "Connection refused" (by decide) rfl

/-- C6: an invocation naming a tool outside the catalog returns the report
`Unknown tool: <name>` with the driver state untouched: no connection is
opened and no database call is issued. -/
theorem callTool_unknown_tool (env : Env) (name : String) (args : Arguments)
    (s : DriverState) (h : name ∉ toolNames) :
    callTool env name args s = (Except.ok [TextContent.mk ("Unknown tool: " ++ name)], s) := by
  simp only [toolNames, List.mem_cons, List.not_mem_nil, or_false, not_or] at h
  obtain ⟨h1, h2, h3, h4⟩ := h
  unfold callTool dispatchTool
  rw [if_neg h1, if_neg h2, if_neg h3, if_neg h4]
  rfl

/-- Witness for C6: the unrecognized name `drop_everything` produces the
`Unknown tool` report and leaves the pristine driver state unchanged. -/
theorem callTool_unknown_tool_witness :
    callTool happyEnv "drop_everything" noArgs s0
      = (Except.ok [TextContent.mk ("Unknown tool: " ++ "drop_everything")], s0) :=
  callTool_unknown_tool happyEnv "drop_everything" noArgs s0 (by decide)

/-- Counterexample to C2: `127.0.0.1` is a loopback address, yet
`get_connection` does request TLS for it, because the code tests
`self.host != "localhost"` literally rather than loopback-ness. -/
theorem tls_loopback_counterexample :
    isLoopback "127.0.0.1" = true ∧ tlsRequested "127.0.0.1" = true := by
  exact ⟨rfl, rfl⟩

/-- C2 (amended): TLS is requested exactly when the configured host is not
the literal string `localhost`; loopback addresses spelled any other way
(such as `127.0.0.1`) do get a TLS request. -/
theorem tlsRequested_iff_not_localhost (host : String) :
    tlsRequested host = true ↔ host ≠ "localhost" := by
  unfold tlsRequested sslArg
  by_cases h : host = "localhost" <;> simp [h]

/-- C4: the Statement Classifier returns Projection exactly for the SQL
strings whose trimmed, uppercased form begins with SELECT, SHOW, DESCRIBE
or EXPLAIN (the spec-side predicate `specProjection`), and Mutation for
every other string. -/
theorem classify_matches_spec (sql : String) :
    (classify sql = StatementClass.Projection ↔ specProjection sql) ∧
    (classify sql = StatementClass.Mutation ↔ ¬ specProjection sql) := by
  have key : isProjectionQuery sql = true ↔ specProjection sql := by
    unfold isProjectionQuery startswithAny specProjection
    simp only [List.any_eq_true, List.mem_map]
    constructor
    · rintro ⟨p, ⟨kw, hkw, rfl⟩, hpre⟩
      exact ⟨kw, hkw, hpre⟩
    · rintro ⟨kw, hkw, hpre⟩
      exact ⟨kw.data, ⟨kw, hkw, rfl⟩, hpre⟩
  by_cases hb : isProjectionQuery sql = true
  · have hs : specProjection sql := key.mp hb
    simp [classify, hb, hs]
  · have hs : ¬ specProjection sql := fun h => hb (key.mpr h)
    simp [classify, hb, hs]

/-- C10: the classification is a bare prefix test with no word-boundary
check: any SQL string whose trimmed, uppercased form merely starts with the
characters SELECT, SHOW, DESCRIBE or EXPLAIN — keyword a whole token or
not — is classified Projection, and `execute_sql` then fetches its rows. -/
theorem prefix_only_projection (sql : String)
    (h : List.isPrefixOf "SELECT".data (upperChars (stripChars sql.data)) = true
       ∨ List.isPrefixOf "SHOW".data (upperChars (stripChars sql.data)) = true
       ∨ List.isPrefixOf "DESCRIBE".data (upperChars (stripChars sql.data)) = true
       ∨ List.isPrefixOf "EXPLAIN".data (upperChars (stripChars sql.data)) = true) :
    classify sql = StatementClass.Projection ∧
    ∀ env args, args.query = some sql →
      env.connectResult = Except.ok () →
      env.cursorResult = Except.ok () →
      (∀ k r, env.executeResult k r = Except.ok ()) →
      Event.fetchall ∈ ((executeSql env args s0).2).trace := by
  have hp : isProjectionQuery sql = true := by
    unfold isProjectionQuery startswithAny projectionKeywords
    rcases h with h | h | h | h <;> simp [h]
  constructor
  · simp [classify, hp]
  · intro env args hq hconn hcur hE
    cases hmt : args.measure_time.getD false <;>
    cases hf : env.fetchallResult 0 <;>
    simp [executeSql, bind_eq, mBind, getRequired, hq, pure_eq, mPure, getConnection, hconn,
      tryFinally, makeCursor, hcur, cursorExecute, hE, measuredElapsed, readElapsed,
      maybeFetchDiscard, fetchall, commit, closeConnection, hp, hmt, hf, s0, Except.map]

/-- Witness for C10: `SELECTION id FROM t` — where SELECT is not a whole
token — is classified Projection and its rows are fetched. -/
theorem prefix_only_projection_witness :
    classify "SELECTION id FROM t" = StatementClass.Projection ∧
    Event.fetchall ∈
      ((executeSql happyEnv (queryArgs "SELECTION id FROM t") s0).2).trace :=
  ⟨(prefix_only_projection "SELECTION id FROM t" (Or.inl (by decide))).1,
   (prefix_only_projection "SELECTION id FROM t" (Or.inl (by decide))).2 happyEnv
     (queryArgs "SELECTION id FROM t") rfl rfl rfl (fun _ _ => rfl)⟩

/-- Counterexample to C1: `benchmark_query` has no lower clamp.  With
`iterations=0` the executed iteration count is 0 — outside [1,50] — and
the invocation performs only the warm-up execution and then reports a
division-by-zero error. -/
theorem benchmark_no_lower_clamp_counterexample :
    executedIterations 0 = 0 ∧
    (benchmarkQuery happyEnv (benchArgs "SELECT 1" 0) s0).1
      = Except.error "division by zero" ∧
    execEvents ((benchmarkQuery happyEnv (benchArgs "SELECT 1" 0) s0).2).trace = 1 :=
  ⟨rfl, rfl, rfl⟩

/-- C1 (amended): `iterations` is only capped from above at 50 — values
above 50 are silently capped (so `iterations=100` yields exactly 50 timed
runs, 51 executions counting the warm-up) and the executed count never
exceeds 50; for `iterations ≥ 1` it lies in [1,50], but below 1 no clamp
applies: zero timed runs happen and the call reports the division-by-zero
error. -/
theorem benchmark_iterations_upper_clamp (env : Env) (args : Arguments) (q : String)
    (i : Int) (rowsOf : Nat → List Row)
    (hq : args.query = some q) (hi : args.iterations = some i)
    (hconn : env.connectResult = Except.ok ())
    (hcur : env.cursorResult = Except.ok ())
    (hE : ∀ k r, env.executeResult k r = Except.ok ())
    (hF : ∀ k, env.fetchallResult k = Except.ok (rowsOf k)) :
    executedIterations i ≤ 50 ∧
    (1 ≤ i → 1 ≤ executedIterations i) ∧
    executedIterations 100 = 50 ∧
    (i ≤ 0 → (benchmarkQuery env args s0).1 = Except.error "division by zero") ∧
    ∃ times : List ℚ, ∃ final : DriverState,
      times.length = executedIterations i ∧
      execEvents final.trace = executedIterations i + 1 ∧
      (benchmarkQuery env args s0).2 = final := by
  obtain ⟨times, final, hlen, htrace, hopen, hrun⟩ :=
    benchmarkQuery_run env args q i rowsOf hq hi hconn hcur hE hF
  refine ⟨?_, ?_, by decide, ?_, times, final, hlen, ?_, ?_⟩
  · unfold executedIterations clampIterations
    split <;> omega
  · intro h1
    unfold executedIterations clampIterations
    split <;> omega
  · intro hle
    have hz : times.length = 0 := by
      rw [hlen]
      unfold clampIterations
      split <;> omega
    rw [hrun, if_pos hz]
  · have h1 : execEvents [Event.connect, Event.cursor] = 0 := rfl
    have h2 : execEvents [Event.close] = 0 := rfl
    rw [htrace, execEvents_append, execEvents_append, execEvents_append,
      execEvents_iterEvents, execEvents_iterTrace, h1, h2]
    unfold executedIterations
    omega
  · rw [hrun]

/-- Witness for C1: `iterations=100` on an all-success environment yields
exactly 50 timed runs and 51 executed statements counting the warm-up. -/
theorem benchmark_iterations_upper_clamp_witness :
    executedIterations 100 ≤ 50 ∧
    (1 ≤ (100 : Int) → 1 ≤ executedIterations 100) ∧
    executedIterations 100 = 50 ∧
    ((100 : Int) ≤ 0 →
      (benchmarkQuery happyEnv (benchArgs "SELECT 1" 100) s0).1
        = Except.error "division by zero") ∧
    ∃ times : List ℚ, ∃ final : DriverState,
      times.length = executedIterations 100 ∧
      execEvents final.trace = executedIterations 100 + 1 ∧
      (benchmarkQuery happyEnv (benchArgs "SELECT 1" 100) s0).2 = final :=
  benchmark_iterations_upper_clamp happyEnv (benchArgs "SELECT 1" 100) "SELECT 1" 100
    (fun _ => []) rfl rfl rfl rfl (fun _ _ => rfl) (fun _ => rfl)

/-- C7: `benchmark_query` with `iterations=5` executes the query once as
untimed warm-up (fetching its rows exactly when it is a projection — the
`iterEvents q` block preceding the five timed repetitions in the trace),
produces a per-iteration sequence of exactly 5 entries, and reports
statistics satisfying minimum ≤ average ≤ maximum. -/
theorem benchmark_five_iterations (env : Env) (args : Arguments) (q : String)
    (rowsOf : Nat → List Row)
    (hq : args.query = some q) (hi : args.iterations = some 5)
    (hconn : env.connectResult = Except.ok ())
    (hcur : env.cursorResult = Except.ok ())
    (hE : ∀ k r, env.executeResult k r = Except.ok ())
    (hF : ∀ k, env.fetchallResult k = Except.ok (rowsOf k)) :
    ∃ times : List ℚ, ∃ final : DriverState,
      times.length = 5 ∧
      benchmarkQuery env args s0 = (Except.ok [TextContent.mk (benchReport env q 5
        (times.sum / (times.length : ℚ)) (listMin times) (listMax times) times)], final) ∧
      listMin times ≤ times.sum / (times.length : ℚ) ∧
      times.sum / (times.length : ℚ) ≤ listMax times ∧
      final.trace = [Event.connect, Event.cursor] ++ iterEvents q
        ++ iterTrace q 5 ++ [Event.close] := by
  obtain ⟨times, final, hlen, htrace, hopen, hrun⟩ :=
    benchmarkQuery_run env args q 5 rowsOf hq hi hconn hcur hE hF
  have hc : clampIterations 5 = 5 := by decide
  rw [hc] at hlen htrace hrun
  have hlen5 : times.length = 5 := by simpa using hlen
  have hne : times ≠ [] := by
    intro h
    rw [h] at hlen5
    cases hlen5
  have hstats := listMin_le_avg_le_listMax times hne
  have hz : ¬ (times.length = 0) := by omega
  refine ⟨times, final, hlen5, ?_, hstats.1, hstats.2, by simpa using htrace⟩
  rw [hrun, if_neg hz]

/-- Witness for C7: a successful five-iteration benchmark of `SELECT 1`. -/
theorem benchmark_five_iterations_witness :
    ∃ times : List ℚ, ∃ final : DriverState,
      times.length = 5 ∧
      benchmarkQuery happyEnv (benchArgs "SELECT 1" 5) s0
        = (Except.ok [TextContent.mk (benchReport happyEnv "SELECT 1" 5
          (times.sum / (times.length : ℚ)) (listMin times) (listMax times) times)], final) ∧
      listMin times ≤ times.sum / (times.length : ℚ) ∧
      times.sum / (times.length : ℚ) ≤ listMax times ∧
      final.trace = [Event.connect, Event.cursor] ++ iterEvents "SELECT 1"
        ++ iterTrace "SELECT 1" 5 ++ [Event.close] :=
  benchmark_five_iterations happyEnv (benchArgs "SELECT 1" 5) "SELECT 1"
    (fun _ => []) rfl rfl rfl rfl (fun _ _ => rfl) (fun _ => rfl)

/-- C8: on a query classified as a Projection, `execute_sql` fetches all
resulting rows and reports `Rows returned: <n>` where `n` is the number of
fetched rows; when no row came back the body is the literal
`No rows returned.` instead of a serialized row set. -/
theorem executeSql_projection_report (env : Env) (args : Arguments) (sql : String)
    (rows : List Row)
    (hq : args.query = some sql)
    (hproj : classify sql = StatementClass.Projection)
    (hconn : env.connectResult = Except.ok ())
    (hcur : env.cursorResult = Except.ok ())
    (hE : ∀ k r, env.executeResult k r = Except.ok ())
    (hf : env.fetchallResult 0 = Except.ok rows) :
    ∃ timing body : String,
      (executeSql env args s0).1 = Except.ok [TextContent.mk
        ("Query executed successfully.\n" ++ timing
          ++ "Rows returned: " ++ toString rows.length ++ "\n\n" ++ body)] ∧
      (args.measure_time.getD false = false → timing = "") ∧
      (rows = [] → body = "No rows returned.") ∧
      (rows ≠ [] → body = env.jsonDumps rows) ∧
      Event.fetchall ∈ ((executeSql env args s0).2).trace := by
  have hp : isProjectionQuery sql = true := (classify_projection_iff sql).mp hproj
  have hbody : rows = [] → (if rows.isEmpty = false then env.jsonDumps rows
      else "No rows returned.") = "No rows returned." := by
    intro hr
    subst hr
    rfl
  cases hmt : args.measure_time.getD false with
  | false =>
    refine ⟨"", if rows.isEmpty = false then env.jsonDumps rows else "No rows returned.",
      ?_, fun _ => rfl, hbody, ?_, ?_⟩
    · simp [executeSql, bind_eq, mBind, getRequired, hq, pure_eq, mPure, getConnection,
        hconn, tryFinally, makeCursor, hcur, cursorExecute, hE, measuredElapsed,
        readElapsed, maybeFetchDiscard, fetchall, closeConnection, hp, hmt, hf, s0,
        Except.map, timingLine]
    · intro hr
      have : rows.isEmpty = false := by
        cases rows with
        | nil => exact absurd rfl hr
        | cons x xs => rfl
      rw [if_pos this]
    · simp [executeSql, bind_eq, mBind, getRequired, hq, pure_eq, mPure, getConnection,
        hconn, tryFinally, makeCursor, hcur, cursorExecute, hE, measuredElapsed,
        readElapsed, maybeFetchDiscard, fetchall, closeConnection, hp, hmt, hf, s0,
        Except.map]
  | true =>
    refine ⟨timingLine env (some (env.elapsedMs 0)),
      if rows.isEmpty = false then env.jsonDumps rows else "No rows returned.",
      ?_, ?_, hbody, ?_, ?_⟩
    · simp [executeSql, bind_eq, mBind, getRequired, hq, pure_eq, mPure, getConnection,
        hconn, tryFinally, makeCursor, hcur, cursorExecute, hE, measuredElapsed,
        readElapsed, maybeFetchDiscard, fetchall, closeConnection, hp, hmt, hf, s0,
        Except.map]
    · intro h
      exact Bool.noConfusion h
    · intro hr
      have : rows.isEmpty = false := by
        cases rows with
        | nil => exact absurd rfl hr
        | cons x xs => rfl
      rw [if_pos this]
    · simp [executeSql, bind_eq, mBind, getRequired, hq, pure_eq, mPure, getConnection,
        hconn, tryFinally, makeCursor, hcur, cursorExecute, hE, measuredElapsed,
        readElapsed, maybeFetchDiscard, fetchall, closeConnection, hp, hmt, hf, s0,
        Except.map]

/-- Witness for C8: `SELECT 1` against an environment returning zero rows
reports `Rows returned: 0` and the literal `No rows returned.` body. -/
theorem executeSql_projection_report_witness :
    ∃ timing body : String,
      (executeSql happyEnv (queryArgs "SELECT 1") s0).1 = Except.ok [TextContent.mk
        ("Query executed successfully.\n" ++ timing
          ++ "Rows returned: " ++ toString ([] : List Row).length ++ "\n\n" ++ body)] ∧
      ((queryArgs "SELECT 1").measure_time.getD false = false → timing = "") ∧
      (([] : List Row) = [] → body = "No rows returned.") ∧
      (([] : List Row) ≠ [] → body = happyEnv.jsonDumps []) ∧
      Event.fetchall ∈ ((executeSql happyEnv (queryArgs "SELECT 1") s0).2).trace :=
  executeSql_projection_report happyEnv (queryArgs "SELECT 1") "SELECT 1" []
    rfl (by decide) rfl rfl (fun _ _ => rfl) rfl

set_option maxRecDepth 8000 in
/-- C9: `get_table_info` without a table name issues the all-tables
metadata query — which asks the database for descending order of
`total_size` (`ORDER BY total_size DESC`) over the configured database —
and renders the returned rows in the order received, so when the database
honors the requested order the report lists tables by descending total
size; any invocation whose metadata query returns zero rows yields the
literal `No tables found.` report, not an error. -/
theorem getTableInfo_report (env : Env) (rows : List TableRow)
    (hconn : env.connectResult = Except.ok ())
    (hcur : env.cursorResult = Except.ok ())
    (hE : ∀ k r, env.executeResult k r = Except.ok ())
    (ht : env.fetchTablesResult = Except.ok rows) :
    (∃ pre post : String, allTablesQuery = pre ++ "ORDER BY total_size DESC" ++ post) ∧
    (∀ args : Arguments, (args.table_name.getD "") = "" →
      Event.execute allTablesQuery [env.config.database]
        ∈ ((getTableInfo env args s0).2).trace) ∧
    (∀ args : Arguments, (args.table_name.getD "") = "" →
      sortedByTotalSizeDesc rows → rows ≠ [] →
      (getTableInfo env args s0).1 = Except.ok [TextContent.mk
        ("Table Information:\n\n" ++ String.join (rows.map (renderTable env)))]) ∧
    (∀ args : Arguments, rows = [] →
      (getTableInfo env args s0).1 = Except.ok [TextContent.mk "No tables found."]) := by
  refine ⟨⟨"
                SELECT
                    table_name,
                    table_rows,
                    data_length,
                    index_length,
                    (data_length + index_length) as total_size,
                    auto_increment,
                    table_comment
                FROM information_schema.tables
                WHERE table_schema = %s
                ", "
            ", rfl⟩, ?_, ?_, ?_⟩
  · intro args hn
    cases rows <;>
    simp [getTableInfo, bind_eq, mBind, pure_eq, mPure, getConnection, hconn,
      tryFinally, makeCursor, hcur, execTableInfoQuery, hn, cursorExecute, hE,
      fetchTables, ht, closeConnection, s0, Except.map]
  · intro args hn hsorted hne
    simp [getTableInfo, bind_eq, mBind, pure_eq, mPure, getConnection, hconn,
      tryFinally, makeCursor, hcur, execTableInfoQuery, hn, cursorExecute, hE,
      fetchTables, ht, closeConnection, hne, s0, Except.map]
  · intro args hre0
    subst hre0
    by_cases hn : (args.table_name.getD "") = "" <;>
    simp [getTableInfo, bind_eq, mBind, pure_eq, mPure, getConnection, hconn,
      tryFinally, makeCursor, hcur, execTableInfoQuery, hn, cursorExecute, hE,
      fetchTables, ht, closeConnection, s0, Except.map]

/-- Witness for C9: a schema with zero tables produces the query with the
descending-order clause and the literal `No tables found.` report. -/
theorem getTableInfo_report_witness :
    (∃ pre post : String, allTablesQuery = pre ++ "ORDER BY total_size DESC" ++ post) ∧
    Event.execute allTablesQuery [happyEnv.config.database]
      ∈ ((getTableInfo happyEnv noArgs s0).2).trace ∧
    (getTableInfo happyEnv noArgs s0).1 = Except.ok [TextContent.mk "No tables found."] := by
  obtain ⟨h1, h2, h3, h4⟩ :=
    getTableInfo_report happyEnv [] rfl rfl (fun _ _ => rfl) rfl
  exact ⟨h1, h2 noArgs rfl, h4 noArgs rfl⟩

end TidbMcp
